import Mathlib

/-!
Verification development for the `uncertain_geostatistics` streamlit UI shell
(`streamlit_app.py`): session-info construction at consent and login time,
the anonymous-file retention sweep, the per-session cleanup launch flag,
store-path resolution, the chapter dispatch boundary, and the cookie/data
deletion branch of the home page.

Python dicts holding the session info are embedded as insertion-ordered
association lists over string keys; machine behaviour such as Python string
methods and `glob` patterns is embedded via explicit character-list helpers
so every definition evaluates inside the kernel.
-/

set_option autoImplicit false

namespace SkgApp

/-- Values stored in the session-info dict: the app stores strings and booleans. -/
inductive Val where
  | str (s : String)
  | bool (b : Bool)
  deriving DecidableEq, Repr

/-- A Python dict of session-info fields, as an insertion-ordered association list. -/
abbrev Info := List (String × Val)

/-- Python `d.get(k)` / `d[k]`: first (and in a real dict, only) binding of `k`. -/
def dictGet : Info → String → Option Val
  | [], _ => none
  | (k0, v) :: rest, k => if k0 = k then some v else dictGet rest k

/-- Python `d[k] = v`: replace the binding in place if the key exists, else append. -/
def dictSet : Info → String → Val → Info
  | [], k, v => [(k, v)]
  | (k0, v0) :: rest, k, v =>
    if k0 = k then (k, v) :: rest else (k0, v0) :: dictSet rest k v

/-- Python `d.update(u)`: assign every binding of `u` into `d`, in order. -/
def dictUpdate (d u : Info) : Info :=
  u.foldl (fun acc kv => dictSet acc kv.1 kv.2) d

/-- Python `s.startswith(pre)`, via character lists so it evaluates in the kernel. -/
def strStartsWith (s pre : String) : Bool :=
  pre.data.isPrefixOf s.data

/-- Python `s.endswith(suf)`, via character lists so it evaluates in the kernel. -/
def strEndsWith (s suf : String) : Bool :=
  suf.data.isSuffixOf s.data

/-- `login` (src lines 311-330): on a successful identity-provider response the
code builds `info = {'data_path': path}` and then runs `info.update(user_data['info'])`,
persists `info` as the cookie and as `st.session_state.skg_opts` with a 30-day
expiry, and sets the separate session-state key `did_login` to `True`. -/
structure LoginPersist where
  cookie : Info
  session_opts : Info
  did_login_flag : Bool
  expiryDays : Nat
  deriving DecidableEq, Repr

/-- The persisted state produced by a successful login with host data directory
`path` and provider profile sub-object `userInfo` (src lines 311-330). -/
def login_success (path : String) (userInfo : Info) : LoginPersist :=
  let info := dictUpdate [("data_path", Val.str path)] userInfo
  { cookie := info
  , session_opts := info
  , did_login_flag := true
  , expiryDays := 30 }

/-- `coookie_consent` (src lines 214-235): outcome of pressing ACCEPT or DECLINE,
with the chosen base dataset `baseData`. On accept the base file is copied to the
fresh anonymous store; the info dict sets `share` and `can_upload` to the accept
decision and the cookie expiry is 14 days on accept, 1 day on decline. -/
structure ConsentResult where
  seedCopy : Option (String × String)
  info : Info
  expiryDays : Nat
  deriving DecidableEq, Repr

/-- The persisted state produced by the consent flow (src lines 214-235). -/
def coookie_consent (accept : Bool) (userId baseData : String) : ConsentResult :=
  { seedCopy :=
      if accept then some (baseData ++ ".db", "a_" ++ userId ++ ".db") else none
  , info :=
      [ ("db_name", Val.str (if accept then "a_" ++ userId ++ ".db" else "shared.db"))
      , ("share", Val.bool accept)
      , ("can_upload", Val.bool accept)
      , ("did_login", Val.bool false) ]
  , expiryDays := if accept then 14 else 1 }

/-! ### Retention sweep (`cleanup_files`, src lines 342-351) -/

/-- A file in the data directory: its name and last-modified time in seconds. -/
structure FsFile where
  name : String
  mtime : Nat
  deriving DecidableEq, Repr

/-- `td(days=14)` in seconds: the retention window of the sweep (src line 350). -/
def retentionSeconds : Nat := 14 * 86400

/-- The glob pattern `a_*.db` used to list anonymous-class files (src line 345):
a name matches iff it starts with `a_` and ends with `.db`. -/
def matchesAnonGlob (n : String) : Bool :=
  strStartsWith n "a_" && strEndsWith n ".db"

/-- `dt.now() > mod_date + td(days=14)` (src line 350) for the file `f`. -/
def isStale (now : Nat) (f : FsFile) : Bool :=
  decide (f.mtime + retentionSeconds < now)

/-- `cleanup_files` (src lines 342-351) in the failure-free case: the directory
listing after globbing `a_*.db` and removing each listed file whose
last-modified time is strictly more than 14 days before `now`. -/
def cleanup_files (now : Nat) (fs : List FsFile) : List FsFile :=
  fs.filter (fun f => !(matchesAnonGlob f.name && isStale now f))

/-- `cleanup_files` with fallible removal: `removeOk` says whether `os.remove`
succeeds on a name. The loop body (src lines 348-351) has no exception handler,
so the first failing removal raises out of the loop: the result is the directory
contents when the loop ends, paired with whether an exception was raised. -/
def sweepRun (now : Nat) (removeOk : String → Bool) : List FsFile → List FsFile × Bool
  | [] => ([], false)
  | f :: rest =>
    if matchesAnonGlob f.name && isStale now f then
      if removeOk f.name then sweepRun now removeOk rest
      else (f :: rest, true)
    else
      let r := sweepRun now removeOk rest
      (f :: r.1, r.2)

/-! ### Cleanup launch flag (`main_app`, src lines 401-407) -/

/-- Process state relevant to launching the sweep: the per-client-session
`st.session_state.did_cleanup` flags, and how many sweep threads were started. -/
structure AppProc where
  sessionFlags : List (String × Bool)
  sweepsStarted : Nat
  deriving DecidableEq, Repr

/-- Read a session's `did_cleanup` flag; `st.session_state.get('did_cleanup', False)`. -/
def getFlag : List (String × Bool) → String → Bool
  | [], _ => false
  | (s, b) :: rest, sid => if s = sid then b else getFlag rest sid

/-- Set a session's `did_cleanup` flag to `True`. -/
def setFlag : List (String × Bool) → String → List (String × Bool)
  | [], sid => [(sid, true)]
  | (s, b) :: rest, sid =>
    if s = sid then (sid, true) :: rest else (s, b) :: setFlag rest sid

/-- One request served by `main_app` for client session `sid`, restricted to the
cleanup-launch logic (src lines 401-407): if the session's `did_cleanup` flag is
unset, start a sweep thread and set the flag; otherwise do nothing. -/
def main_app_cleanup_step (p : AppProc) (sid : String) : AppProc :=
  if getFlag p.sessionFlags sid then p
  else { sessionFlags := setFlag p.sessionFlags sid
       , sweepsStarted := p.sweepsStarted + 1 }

/-! ### Store-path resolution (src lines 392-399 and 136-148) -/

/-- Split a character list on a delimiter character. -/
def splitOnChar (c : Char) (l : List Char) : List (List Char) :=
  l.foldr (fun ch acc =>
    match acc with
    | [] => [[ch]]
    | g :: gs => if ch = c then [] :: g :: gs else (ch :: g) :: gs) [[]]

/-- The non-empty segments of a POSIX path string. -/
def pathSegs (s : String) : List String :=
  ((splitOnChar (Char.ofNat 47) s.data).map (fun g => String.mk g)).filter
    (fun seg => !(seg == ""))

/-- POSIX path normalisation on segments: `..` pops a segment, `.` is dropped. -/
def normSegs (l : List String) : List String :=
  l.foldl (fun acc seg =>
    if seg = ".." then acc.dropLast
    else if seg = "." then acc
    else acc ++ [seg]) []

/-- `os.path.join(path, fname)` for a relative `fname`, as used to resolve the
active store (src lines 140, 146) and by `API(**opts)` from `data_path` and
`db_name`: plain concatenation with a separator, with no validation. -/
def resolveStore (dataPath dbName : String) : String :=
  dataPath ++ "/" ++ dbName

/-- Whether the normalisation of path `p` stays inside directory `dir`. -/
def withinDir (dir p : String) : Bool :=
  (normSegs (pathSegs dir)).isPrefixOf (normSegs (pathSegs p))

/-! ### Chapter dispatch (`main_app`, src lines 409-433) -/

/-- The page keys of `ALL_CHAPTERS` (src lines 33-43), i.e. the names the
dispatcher recognises. -/
def pageNames : List String :=
  ["home", "data", "sample", "variogram", "model", "kriging", "simulation",
   "compare", "code_ref"]

/-- What the user sees after dispatch: a rendered page, or the DEBUG diagnostic
expander built in the `except` branch (src lines 429-433). -/
inductive RenderOutcome where
  | rendered
  | diagnostic (e : String)
  deriving DecidableEq, Repr

/-- The `if/elif` chain inside the `try` block (src lines 410-428): a known page
name invokes its handler (which may raise, modelled as `Except.error`), an
unknown name renders nothing. -/
def dispatchChapters (handler : String → Except String Unit) (page : String) :
    Except String Unit :=
  if pageNames.contains page then handler page else Except.ok ()

/-- The whole `try/except` dispatch boundary (src lines 409-433): any exception
from the dispatched body is caught and rendered as the DEBUG diagnostic panel. -/
def main_app_dispatch (handler : String → Except String Unit) (page : String) :
    RenderOutcome :=
  match dispatchChapters handler page with
  | Except.ok _ => RenderOutcome.rendered
  | Except.error e => RenderOutcome.diagnostic e

/-! ### Cookie/data deletion branch (`index`, src lines 134-148) -/

/-- Python attribute lookup on `str` restricted to the prefix-test methods: the
method named `startswith` exists, any other name (in particular the misspelling
`startwith` written at src line 141) does not. -/
def strMethodLookup (m : String) : Option (String → String → Bool) :=
  if m = "startswith" then some (fun s pre => strStartsWith s pre) else none

/-- Outcome of the DELETE COOKIE AND DATA branch of the home page. -/
inductive DeleteOutcome where
  | removedFile (path : String)
  | warnedPersonal
  | warnedUnsupported
  | attributeError (m : String)
  deriving DecidableEq, Repr

/-- The `del_all` branch of `index` (src lines 136-148): anonymous-class names
are removed directly; otherwise the code evaluates `fname.startwith('u_')`,
which is an attribute lookup of the nonexistent method `startwith` and raises
`AttributeError` before any warning or removal; a missing `db_name` falls
through to the unsupported-deletion warning. -/
def deleteAllBranch (dataPath : String) (fname : Option String) : DeleteOutcome :=
  match fname with
  | none => DeleteOutcome.warnedUnsupported
  | some f =>
    if strStartsWith f "a_" then DeleteOutcome.removedFile (resolveStore dataPath f)
    else
      match strMethodLookup "startwith" with
      | some m =>
        if m f "u_" then DeleteOutcome.warnedPersonal
        else DeleteOutcome.warnedUnsupported
      | none => DeleteOutcome.attributeError "startwith"

/-! ### Association-list lemmas for the dict embedding -/

theorem dictGet_set_self (d : Info) (k : String) (v : Val) :
    dictGet (dictSet d k v) k = some v := by
  induction d with
  | nil => simp [dictSet, dictGet]
  | cons a d ih =>
    obtain ⟨k0, v0⟩ := a
    by_cases h : k0 = k
    · simp [dictSet, dictGet, h]
    · simp [dictSet, dictGet, h, ih]

theorem dictGet_set_ne (d : Info) (k k' : String) (v : Val) (h : k' ≠ k) :
    dictGet (dictSet d k v) k' = dictGet d k' := by
  induction d with
  | nil => simp [dictSet, dictGet, Ne.symm h]
  | cons a d ih =>
    obtain ⟨k0, v0⟩ := a
    by_cases h0 : k0 = k
    · subst h0
      simp [dictSet, dictGet, Ne.symm h]
    · simp only [dictSet, if_neg h0, dictGet]
      by_cases h1 : k0 = k'
      · simp [h1]
      · simp [h1, ih]

theorem dictGet_update_not_mem (d u : Info) (k : String)
    (h : k ∉ u.map Prod.fst) : dictGet (dictUpdate d u) k = dictGet d k := by
  induction u generalizing d with
  | nil => rfl
  | cons a u ih =>
    obtain ⟨k0, v0⟩ := a
    simp only [List.map_cons, List.mem_cons, not_or] at h
    show dictGet (dictUpdate (dictSet d k0 v0) u) k = dictGet d k
    rw [ih _ h.2, dictGet_set_ne _ _ _ _ h.1]

theorem dictGet_update_mem (d u : Info) (k : String) (v : Val)
    (hnd : (u.map Prod.fst).Nodup) (h : dictGet u k = some v) :
    dictGet (dictUpdate d u) k = some v := by
  induction u generalizing d with
  | nil => simp [dictGet] at h
  | cons a u ih =>
    obtain ⟨k0, v0⟩ := a
    simp only [List.map_cons, List.nodup_cons] at hnd
    show dictGet (dictUpdate (dictSet d k0 v0) u) k = some v
    by_cases h0 : k0 = k
    · subst h0
      simp only [dictGet, if_pos rfl] at h
      rw [dictGet_update_not_mem _ _ _ hnd.1, dictGet_set_self]
      exact h
    · simp only [dictGet, if_neg h0] at h
      exact ih _ hnd.2 h

theorem getFlag_setFlag (l : List (String × Bool)) (sid : String) :
    getFlag (setFlag l sid) sid = true := by
  induction l with
  | nil => simp [setFlag, getFlag]
  | cons a l ih =>
    obtain ⟨s, b⟩ := a
    by_cases h : s = sid
    · simp [setFlag, getFlag, h]
    · simp [setFlag, getFlag, h, ih]

/-! ### Claim C1: login merge -/

/-- Claim C1 as stated is false: the code builds `info = {'data_path': path}`
and then runs `info.update(user_data['info'])`, so a provider `info` sub-object
that itself carries a `data_path` field overrides the host-configured data
directory in the persisted SessionInfo; moreover `did_login` is not a field of
the persisted dict at all (it is a separate session-state key). -/
theorem login_data_path_override_counterexample :
    dictGet (login_success "/srv/app/data"
        [("data_path", Val.str "/tmp/evil")]).cookie "data_path"
      = some (Val.str "/tmp/evil") ∧
    dictGet (login_success "/srv/app/data"
        [("data_path", Val.str "/tmp/evil")]).cookie "did_login" = none :=
  ⟨rfl, rfl⟩

/-- Claim C1 (amended): for every successful login, the persisted SessionInfo
contains every field of the provider's `info` sub-object with its provider
value; `data_path` equals the host-configured data directory provided the
provider's `info` does not itself contain a `data_path` field; `did_login=true`
is recorded as a separate session-state flag, and is a field of the persisted
dict only if the provider supplied one. -/
theorem login_merge_amended (path : String) (userInfo : Info) (k : String) (v : Val)
    (hnd : (userInfo.map Prod.fst).Nodup)
    (hk : dictGet userInfo k = some v)
    (hdp : "data_path" ∉ userInfo.map Prod.fst)
    (hdl : "did_login" ∉ userInfo.map Prod.fst) :
    dictGet (login_success path userInfo).cookie k = some v ∧
    dictGet (login_success path userInfo).cookie "data_path" = some (Val.str path) ∧
    dictGet (login_success path userInfo).cookie "did_login" = none ∧
    (login_success path userInfo).did_login_flag = true := by
  refine ⟨dictGet_update_mem _ _ _ _ hnd hk, ?_, ?_, rfl⟩
  · rw [show (login_success path userInfo).cookie
        = dictUpdate [("data_path", Val.str path)] userInfo from rfl,
      dictGet_update_not_mem _ _ _ hdp]
    simp [dictGet]
  · rw [show (login_success path userInfo).cookie
        = dictUpdate [("data_path", Val.str path)] userInfo from rfl,
      dictGet_update_not_mem _ _ _ hdl]
    simp [dictGet]

/-- Witness for C1 (amended) at a concrete provider profile. -/
theorem login_merge_amended_witness :
    (([("db_name", Val.str "u_alice.db"), ("name", Val.str "Alice")] :
        Info).map Prod.fst).Nodup ∧
    dictGet [("db_name", Val.str "u_alice.db"), ("name", Val.str "Alice")] "name"
      = some (Val.str "Alice") ∧
    "data_path" ∉ ([("db_name", Val.str "u_alice.db"),
        ("name", Val.str "Alice")] : Info).map Prod.fst ∧
    "did_login" ∉ ([("db_name", Val.str "u_alice.db"),
        ("name", Val.str "Alice")] : Info).map Prod.fst ∧
    (dictGet (login_success "/srv/app/data"
        [("db_name", Val.str "u_alice.db"), ("name", Val.str "Alice")]).cookie "name"
      = some (Val.str "Alice") ∧
     dictGet (login_success "/srv/app/data"
        [("db_name", Val.str "u_alice.db"), ("name", Val.str "Alice")]).cookie "data_path"
      = some (Val.str "/srv/app/data") ∧
     dictGet (login_success "/srv/app/data"
        [("db_name", Val.str "u_alice.db"), ("name", Val.str "Alice")]).cookie "did_login"
      = none ∧
     (login_success "/srv/app/data"
        [("db_name", Val.str "u_alice.db"), ("name", Val.str "Alice")]).did_login_flag
      = true) :=
  ⟨by decide, by decide, by decide, by decide,
   login_merge_amended "/srv/app/data"
     [("db_name", Val.str "u_alice.db"), ("name", Val.str "Alice")] "name"
     (Val.str "Alice") (by decide) (by decide) (by decide) (by decide)⟩

/-! ### Claim C2: can_upload at consent -/

/-- Claim C2 as stated is false: the consent handler sets
`'can_upload': accept`, so an accepted consent with a non-blank base dataset
(here `tereno`, not the blank option `plain`) still yields `can_upload=true`. -/
theorem consent_upload_counterexample :
    dictGet (coookie_consent true "AbCdEfGhIjKlMnOpQrStUvWx" "tereno").info
        "can_upload" = some (Val.bool true) ∧
    ("tereno" : String) ≠ "plain" :=
  ⟨rfl, by decide⟩

/-- Claim C2 (amended): for every consent flow, the persisted `can_upload`
equals the accept decision, regardless of which base dataset was chosen. -/
theorem consent_upload_amended (accept : Bool) (userId baseData : String) :
    dictGet (coookie_consent accept userId baseData).info "can_upload"
      = some (Val.bool accept) := by
  cases accept <;> rfl

/-! ### Claim C3: retention sweep deletes exactly the stale anonymous files -/

/-- Claim C3: for any anonymous-class file (name matching `a_*.db`) present in
the listing, one run of the retention sweep keeps it iff its last-modified time
is at most 14 days before `now`; equivalently it is deleted iff it is strictly
more than 14 days old. -/
theorem cleanup_files_spares_iff_fresh (now : Nat) (fs : List FsFile) (f : FsFile)
    (hmem : f ∈ fs) (hanon : matchesAnonGlob f.name = true) :
    f ∈ cleanup_files now fs ↔ ¬ (f.mtime + retentionSeconds < now) := by
  simp [cleanup_files, List.mem_filter, hmem, hanon, isStale]

/-- Witness for C3 at the spec's example timestamps: with `now` at 30 days, a
file 14 days plus 1 second old is deleted, while a 13-day-old file remains. -/
theorem cleanup_files_spares_iff_fresh_witness :
    (FsFile.mk "a_mid.db" 1382399 ∈
        [FsFile.mk "a_f13.db" 1468800, FsFile.mk "a_mid.db" 1382399,
         FsFile.mk "a_f20.db" 864000] ∧
      matchesAnonGlob "a_mid.db" = true ∧
      (FsFile.mk "a_mid.db" 1382399 ∈ cleanup_files 2592000
          [FsFile.mk "a_f13.db" 1468800, FsFile.mk "a_mid.db" 1382399,
           FsFile.mk "a_f20.db" 864000] ↔
        ¬ (1382399 + retentionSeconds < 2592000))) ∧
    (FsFile.mk "a_f13.db" 1468800 ∈
        [FsFile.mk "a_f13.db" 1468800, FsFile.mk "a_mid.db" 1382399,
         FsFile.mk "a_f20.db" 864000] ∧
      matchesAnonGlob "a_f13.db" = true ∧
      (FsFile.mk "a_f13.db" 1468800 ∈ cleanup_files 2592000
          [FsFile.mk "a_f13.db" 1468800, FsFile.mk "a_mid.db" 1382399,
           FsFile.mk "a_f20.db" 864000] ↔
        ¬ (1468800 + retentionSeconds < 2592000))) :=
  ⟨⟨by decide, by decide,
    cleanup_files_spares_iff_fresh 2592000
      [FsFile.mk "a_f13.db" 1468800, FsFile.mk "a_mid.db" 1382399,
       FsFile.mk "a_f20.db" 864000] (FsFile.mk "a_mid.db" 1382399)
      (by decide) (by decide)⟩,
   ⟨by decide, by decide,
    cleanup_files_spares_iff_fresh 2592000
      [FsFile.mk "a_f13.db" 1468800, FsFile.mk "a_mid.db" 1382399,
       FsFile.mk "a_f20.db" 864000] (FsFile.mk "a_f13.db" 1468800)
      (by decide) (by decide)⟩⟩

/-! ### Claim C4: how often the sweep is launched -/

/-- Claim C4 as stated is false: the launch guard is the per-client-session key
`st.session_state.did_cleanup`, not a process-wide flag, so one process serving
two distinct client sessions starts two sweeps. -/
theorem cleanup_launch_counterexample :
    (main_app_cleanup_step (main_app_cleanup_step (AppProc.mk [] 0) "s1")
        "s2").sweepsStarted = 2 :=
  rfl

/-- Claim C4 (amended): the sweep is launched at most once per client session:
the per-session `did_cleanup` flag makes a second request from the same session
a no-op, but a process serving several sessions launches one sweep per session. -/
theorem cleanup_launch_once_per_session (p : AppProc) (sid : String) :
    main_app_cleanup_step (main_app_cleanup_step p sid) sid
      = main_app_cleanup_step p sid := by
  by_cases h : getFlag p.sessionFlags sid
  · simp [main_app_cleanup_step, h]
  · simp [main_app_cleanup_step, h, getFlag_setFlag]

/-! ### Claim C5: filesystem failure during the sweep -/

/-- Claim C5 as stated is false: the sweep loop has no exception handler, so a
failing `os.remove` on the first stale candidate (here `a_bad.db`) raises out of
`cleanup_files` and the second stale candidate `a_old.db` is left in place
rather than the sweep continuing. -/
theorem sweep_failure_counterexample :
    sweepRun 2592000 (fun n => !(n == "a_bad.db"))
        [FsFile.mk "a_bad.db" 864000, FsFile.mk "a_old.db" 864000]
      = ([FsFile.mk "a_bad.db" 864000, FsFile.mk "a_old.db" 864000], true) := by
  decide

/-- Claim C5 (amended): a filesystem failure while deleting a candidate file is
not swallowed: the exception propagates out of `cleanup_files`, the sweep stops
at the failing candidate, and every later candidate is left unprocessed (only
the detached sweep thread dies; the page render is unaffected). -/
theorem sweep_failure_aborts (now : Nat) (removeOk : String → Bool)
    (f : FsFile) (rest : List FsFile)
    (hanon : matchesAnonGlob f.name = true) (hstale : isStale now f = true)
    (hfail : removeOk f.name = false) :
    sweepRun now removeOk (f :: rest) = (f :: rest, true) := by
  simp [sweepRun, hanon, hstale, hfail]

/-- Witness for C5 (amended) at a concrete failing removal. -/
theorem sweep_failure_aborts_witness :
    matchesAnonGlob "a_gone.db" = true ∧
    isStale 2592000 (FsFile.mk "a_gone.db" 100) = true ∧
    (fun n => !(n == "a_gone.db")) "a_gone.db" = false ∧
    sweepRun 2592000 (fun n => !(n == "a_gone.db"))
        [FsFile.mk "a_gone.db" 100, FsFile.mk "a_later.db" 100]
      = ([FsFile.mk "a_gone.db" 100, FsFile.mk "a_later.db" 100], true) :=
  ⟨by decide, by decide, by decide,
   sweep_failure_aborts 2592000 (fun n => !(n == "a_gone.db"))
     (FsFile.mk "a_gone.db" 100) [FsFile.mk "a_later.db" 100]
     (by decide) (by decide) (by decide)⟩

/-! ### Claim C6: path traversal in db_name -/

/-- Claim C6 (the spec's path-safety requirement) versus the code: the code
never rejects a `db_name`; `os.path.join(data_path, db_name)` is computed
unconditionally, and for a `db_name` carrying parent-directory traversal the
resolved path normalises to a location outside the configured data directory. -/
theorem resolve_traversal_escapes :
    resolveStore "/srv/app/data" "../../etc/evil.db"
      = "/srv/app/data/../../etc/evil.db" ∧
    normSegs (pathSegs "/srv/app/data/../../etc/evil.db")
      = ["srv", "etc", "evil.db"] ∧
    withinDir "/srv/app/data"
        (resolveStore "/srv/app/data" "../../etc/evil.db") = false := by
  refine ⟨rfl, by decide, by decide⟩

/-! ### Claim C7: declined consent -/

/-- Claim C7: every declined-consent flow persists `can_upload=false`, and its
1-day expiry is strictly shorter than the 14-day expiry of every accepted
consent flow and the 30-day expiry of every login flow. -/
theorem decline_no_upload_shortest_expiry (userId baseData userId2 baseData2
    path : String) (userInfo : Info) :
    dictGet (coookie_consent false userId baseData).info "can_upload"
      = some (Val.bool false) ∧
    (coookie_consent false userId baseData).expiryDays
      < (coookie_consent true userId2 baseData2).expiryDays ∧
    (coookie_consent false userId baseData).expiryDays
      < (login_success path userInfo).expiryDays := by
  refine ⟨rfl, ?_, ?_⟩
  · show (1 : Nat) < 14
    decide
  · show (1 : Nat) < 30
    decide

/-! ### Claim C8: sweep idempotence -/

/-- Claim C8: running the retention sweep twice at the same `now` produces the
same directory contents as running it once. -/
theorem cleanup_files_idempotent (now : Nat) (fs : List FsFile) :
    cleanup_files now (cleanup_files now fs) = cleanup_files now fs := by
  simp [cleanup_files, List.filter_filter]

/-! ### Claim C9: the dispatch boundary catches page-handler exceptions -/

/-- Claim C9: for every page name, any exception raised by the dispatched
page-handler chain is caught at the try/except boundary and rendered as the
DEBUG diagnostic panel; the dispatcher itself never propagates it. -/
theorem dispatch_error_renders_diagnostic (handler : String → Except String Unit)
    (page e : String) (h : dispatchChapters handler page = Except.error e) :
    main_app_dispatch handler page = RenderOutcome.diagnostic e := by
  unfold main_app_dispatch
  rw [h]

/-- Witness for C9: a handler that raises on the `variogram` page yields the
diagnostic panel. -/
theorem dispatch_error_renders_diagnostic_witness :
    dispatchChapters (fun _ => Except.error "boom") "variogram"
      = Except.error "boom" ∧
    main_app_dispatch (fun _ => Except.error "boom") "variogram"
      = RenderOutcome.diagnostic "boom" :=
  ⟨rfl, dispatch_error_renders_diagnostic (fun _ => Except.error "boom")
    "variogram" "boom" rfl⟩

/-! ### Claim C10: the `startwith` typo in the deletion branch -/

/-- Claim C10: for every session whose `db_name` is present but does not start
with `a_` (in particular every user-class `u_...` name), the DELETE COOKIE AND
DATA branch evaluates `fname.startwith('u_')`, an attribute lookup of a method
that does not exist on `str`, and so raises `AttributeError` before any warning
is shown and before any file is removed. -/
theorem delete_nonanon_attribute_error (dataPath f : String)
    (h : strStartsWith f "a_" = false) :
    deleteAllBranch dataPath (some f) = DeleteOutcome.attributeError "startwith" := by
  have hm : strMethodLookup "startwith" = none := rfl
  simp [deleteAllBranch, h, hm]

/-- Witness for C10 at the user-class name `u_alice.db`. -/
theorem delete_nonanon_attribute_error_witness :
    strStartsWith "u_alice.db" "a_" = false ∧
    deleteAllBranch "/srv/app/data" (some "u_alice.db")
      = DeleteOutcome.attributeError "startwith" :=
  ⟨by decide,
   delete_nonanon_attribute_error "/srv/app/data" "u_alice.db" (by decide)⟩

end SkgApp
